import Mathlib

/-!
Verification development for the DIEM repository: a shallow embedding of the
three vector-store client implementations (`src/DIEM.py`, `src/DIEM2.py`,
`src/DIEM/DIEM.py`) and proofs about their dynamic SQL construction,
identifier validation, mutation-safety checks and batch-transaction
semantics.

Modelling conventions, shared by all three embeddings:
* SQL statement text is modelled as a `String`, assembled by the same
  concatenations the Python f-strings perform.  The decorative whitespace of
  Python triple-quoted literals (leading newlines, indentation) is collapsed
  to single spaces; every interpolated fragment and every literal SQL token
  is kept.
* A bound parameter map is a `List (String × Val)` in binding order.
* Paths where the Python code raises (`ValueError`, …) or prints an error
  message and returns early without executing SQL are modelled as
  `Except.error` / dedicated no-op constructors; the `Except.ok` payload
  carries the statement text (and parameters) handed to the engine.
* The database engine is external; where its behaviour matters it is a
  parameter (`engineOk : … → Bool` for per-statement success,
  `engine : …` for state transformers) and the catalog of existing tables
  is a `List String`.
* The "engine is connected" guard (`if not self.engine: return`) at the top
  of every method models the connected case; the claims under study all
  concern the connected path.
-/

namespace DIEMSpec

/-! ## Python string helpers -/

/-- ASCII identifier-start characters: letters and underscore.  Mirrors the
`XID_Start` test of Python's `str.isidentifier` on the ASCII range. -/
def isIdentStartA (c : Char) : Bool :=
  c.isAlpha || c = '_'

/-- ASCII identifier-continue characters: letters, digits and underscore.
Mirrors the `XID_Continue` test of Python's `str.isidentifier` on the ASCII
range. -/
def isIdentContA (c : Char) : Bool :=
  c.isAlphanum || c = '_'

/-- Model of Python's `str.isidentifier`: nonempty, first character an
identifier-start, remaining characters identifier-continue.  Python
additionally admits certain non-ASCII `XID` code points (e.g. accented
letters); no identifier appearing in this repository's SQL paths uses them,
and this model conservatively rejects all code points ≥ U+0080.  On ASCII
strings — and on any string containing an ASCII punctuation character,
which both reject — the model agrees with Python exactly. -/
def pyIsIdentifier (s : String) : Bool :=
  match s.data with
  | [] => false
  | c :: cs => isIdentStartA c && cs.all isIdentContA

/-- Acceptance by the regular expression `[A-Za-z_][A-Za-z0-9_]*`, written
directly from the character ranges of the regex (independently of
`pyIsIdentifier`). -/
def identRegexAccepts (s : String) : Bool :=
  match s.data with
  | [] => false
  | c :: cs =>
      (('A' ≤ c && c ≤ 'Z') || ('a' ≤ c && c ≤ 'z') || c = '_') &&
      cs.all (fun d =>
        ('A' ≤ d && d ≤ 'Z') || ('a' ≤ d && d ≤ 'z') ||
        ('0' ≤ d && d ≤ '9') || d = '_')

/-- SQL-significant punctuation: statement separator, the two quote
characters, and keyword-adjacent punctuation (parentheses, comma, dash,
space, equals, star, dot, percent). -/
def sqlPunct : List Char :=
  [';', Char.ofNat 39, Char.ofNat 34, '(', ')', ',', '-', ' ', '=', '*', '.', '%']

/-- Model of Python's `str.lower` on the ASCII range (structurally
recursive so that concrete instances compute): every character is
lower-cased. -/
def pyLower (s : String) : String :=
  ⟨s.data.map Char.toLower⟩

/-- Model of Python's `str.upper` on the ASCII range. -/
def pyUpper (s : String) : String :=
  ⟨s.data.map Char.toUpper⟩

/-- Model of Python's `str.strip` with no argument: leading and trailing
whitespace removed. -/
def pyStrip (s : String) : String :=
  ⟨((s.data.dropWhile Char.isWhitespace).reverse.dropWhile Char.isWhitespace).reverse⟩

/-- Truthiness of an optional string, as Python's `if not where_clause:`
sees it: `None` and the empty string are falsy. -/
def strTruthy : Option String → Bool
  | none => false
  | some s => !s.isEmpty

/-- Truthiness of an optional list (`None`, `[]` falsy; used for Python's
`elif ids:` / `elif filter_by:`). -/
def listTruthy {α : Type} : Option (List α) → Bool
  | none => false
  | some l => !l.isEmpty

/-! ## Values and JSON serialization

Python values flowing through the client: integers (standing in for all
numerics — no claim computes with fractional parts), strings, flat numeric
lists (embeddings), `None`, and `vblob` for any object `json.dumps` cannot
serialize (`TypeError`). -/

inductive Val where
  | vint : Int → Val
  | vstr : String → Val
  | vlist : List Int → Val
  | vnull : Val
  | vblob : Val
deriving DecidableEq, Repr

/-- Model of `json.dumps` on `Val`: fails (Python `TypeError`) exactly on
non-serializable objects. -/
def jsonDumps : Val → Option String
  | .vint n => some (toString n)
  | .vstr s => some ("\x22" ++ s ++ "\x22")
  | .vlist l => some ("[" ++ String.intercalate ", " (l.map toString) ++ "]")
  | .vnull => some "null"
  | .vblob => none

/-- A parameter map handed to the driver together with a statement. -/
abbrev Params := List (String × Val)

/-! ## Error taxonomy

Each constructor corresponds to a distinct raise/print-and-return path in
the source; the string payload records the offending input. -/

inductive DBError where
  | invalidIdentifier : String → DBError
  | invalidMetric : String → DBError
  | serialization : String → DBError
  | unsafeMutation : String → DBError
  | valueError : String → DBError
deriving DecidableEq, Repr

end DIEMSpec

namespace DIEMSpec.DIEM1

/-!  Embedding of `src/DIEM.py` (class `DIEM`). -/

/-- `DIEM.create_table` of `src/DIEM.py`: validates only the distance
metric, then interpolates `table_name`, `vector_dim` and `distance_metric`
into a `CREATE TABLE IF NOT EXISTS` text (no identifier validation), binds
`m` as the parameter `:m`, and executes.  The result carries the statement,
its parameters and the catalog after execution; `IF NOT EXISTS` makes the
engine leave an existing table untouched. -/
def create_table (db : List String) (table_name : String) (vector_dim : Nat)
    (distance_metric : String) (m : Int) :
    Except DBError (String × Params × List String) :=
  if !(["cosine", "euclidean"].contains (pyLower distance_metric)) then
    .error (.invalidMetric distance_metric)
  else
    let sql := "CREATE TABLE IF NOT EXISTS " ++ table_name ++
      " ( doc_id BIGINT UNSIGNED PRIMARY KEY, embedding VECTOR(" ++
      toString vector_dim ++ ") NOT NULL, VECTOR INDEX (embedding) M=:m DISTANCE=" ++
      distance_metric ++ " ) ENGINE=InnoDB;"
    .ok (sql, [("m", .vint m)],
      if db.contains table_name then db else db ++ [table_name])

/-- `DIEM.insert_vectors` of `src/DIEM.py`: builds the INSERT text by
f-string interpolation of `doc_id` and `embedding` directly into the VALUES
clause (the source then prints a success message without executing the
statement).  Returns the statement text it produces. -/
def insert_vectors (doc_id : Int) (table_name : String) (embedding : String) :
    String :=
  "INSERT INTO " ++ table_name ++ " (doc_id, embedding) VALUES (" ++
    toString doc_id ++ ", VEC_FromText(" ++ embedding ++ "));"

end DIEMSpec.DIEM1

namespace DIEMSpec.DEAM

/-!  Embedding of `src/DIEM2.py` (class `DEAM`). -/

/-- Outcome of `DEAM.delete_vectors`: either no deletion criteria were given
(the method prints a message, closes the cursor and returns without
executing any statement) or a statement was executed. -/
inductive DeleteOutcome where
  | noCriteria
  | executed : String → DeleteOutcome
deriving DecidableEq, Repr

/-- A single ASCII quote character, as a string (used where the Python
f-strings place literal quotes around interpolated values). -/
def sq : String := String.singleton (Char.ofNat 39)

/-- `DEAM.delete_vectors` of `src/DIEM2.py`: with `delete_all` truthy it
issues `TRUNCATE TABLE`; otherwise a truthy `ids` list gives a
`DELETE … WHERE id IN (…)` with the ids interpolated; otherwise a truthy
`filter_by` map gives JSON_EXTRACT equality conditions with the values
interpolated; with no criteria it executes nothing. -/
def delete_vectors (table_name : String) (ids : Option (List Int))
    (filter_by : Option (List (String × String))) (delete_all : Bool) :
    DeleteOutcome :=
  if delete_all then
    .executed ("TRUNCATE TABLE " ++ table_name)
  else if listTruthy ids then
    .executed ("DELETE FROM " ++ table_name ++ " WHERE id IN (" ++
      String.intercalate ", " ((ids.getD []).map toString) ++ ")")
  else if listTruthy filter_by then
    .executed ("DELETE FROM " ++ table_name ++ " WHERE " ++
      String.intercalate " AND "
        ((filter_by.getD []).map (fun kv =>
          "JSON_EXTRACT(metadata, " ++ sq ++ "$." ++ kv.1 ++ sq ++ ") = " ++
            sq ++ kv.2 ++ sq)))
  else
    .noCriteria

/-- `DEAM.search_vectors` of `src/DIEM2.py`: maps the metric to a distance
operator and sort order — `euclidean ↦ (<=>, ASC)`, `cosine ↦ (<#>, ASC)`,
`ip ↦ (<->, DESC)` — raising `ValueError` for anything else, then builds a
SELECT ordered by the distance operator with the query vector and limit
bound as `%s` placeholders. -/
def search_vectors (table_name : String) (metric : String) :
    Except DBError String :=
  let choose : Option (String × String) :=
    if pyLower metric = "euclidean" then some ("<=>", "ASC")
    else if pyLower metric = "cosine" then some ("<#>", "ASC")
    else if pyLower metric = "ip" then some ("<->", "DESC")
    else none
  match choose with
  | none => .error (.invalidMetric metric)
  | some (op, ord) =>
      .ok ("SELECT id, 1-(vector " ++ op ++ " %s) AS similarity_score, metadata FROM " ++
        table_name ++ " ORDER BY vector " ++ op ++ " %s " ++ ord ++ " LIMIT %s")

end DIEMSpec.DEAM

namespace DIEMSpec.DIEMv

/-!  Embedding of `src/DIEM/DIEM.py` (class `DIEM`), the variant used by
`src/diem/cli.py`. -/

/-- The loop over `other_columns.items()` in `DIEM.create_table`: each
column name must pass `isidentifier`, and yields a column definition with
the name backtick-quoted and the caller's type string appended.  The first
invalid name raises `ValueError`. -/
def buildColumnDefs : List (String × String) → Except DBError (List String)
  | [] => .ok []
  | (col_name, col_type) :: rest =>
      if pyIsIdentifier col_name then
        match buildColumnDefs rest with
        | .error e => .error e
        | .ok ds => .ok (("`" ++ col_name ++ "` " ++ col_type) :: ds)
      else
        .error (.invalidIdentifier col_name)

/-- The primary-key block of `DIEM.create_table`: absent key contributes no
clause; a present key must pass `isidentifier` and be declared in
`other_columns`, contributing a `PRIMARY KEY` clause. -/
def pkClause (primary_key : Option String) (other_columns : List (String × String)) :
    Except DBError (List String) :=
  match primary_key with
  | none => .ok []
  | some k =>
      if !pyIsIdentifier k then
        .error (.invalidIdentifier k)
      else if !(other_columns.map Prod.fst).contains k then
        .error (.valueError k)
      else
        .ok ["PRIMARY KEY (`" ++ k ++ "`)"]

/-- Result of `DIEM.create_table`: the existence check short-circuits to a
no-op, otherwise a CREATE statement (with `m` bound as `:m`) is executed. -/
inductive CreateResult where
  | alreadyExists
  | created : String → Params → CreateResult
deriving DecidableEq, Repr

/-- `DIEM.create_table` of `src/DIEM/DIEM.py`.  Order is the source's:
(1) catalog lookup `inspect(engine).has_table` — an engine round trip —
returning early when the table exists; (2) `isidentifier` checks on the
table and index names; (3) the distance-metric domain check; (4) the
`other_columns` loop; (5) the embedding column of the declared dimension;
(6) the optional primary-key clause; (7) the vector-index clause with `m`
bound and the metric upper-cased; then the CREATE text (the source joins
the definition list with the literal string `",n"`) is executed, adding the
table to the catalog. -/
def create_table (db : List String) (table_name : String) (vector_dim : Nat)
    (other_columns : List (String × String)) (primary_key : Option String)
    (distance_metric : String) (m : Int) (index_name : String) :
    Except DBError (CreateResult × List String) :=
  if db.contains table_name then
    .ok (.alreadyExists, db)
  else if !pyIsIdentifier table_name then
    .error (.invalidIdentifier table_name)
  else if !pyIsIdentifier index_name then
    .error (.invalidIdentifier index_name)
  else if !(["cosine", "euclidean"].contains (pyLower distance_metric)) then
    .error (.invalidMetric distance_metric)
  else
    match buildColumnDefs other_columns with
    | .error e => .error e
    | .ok colDefs =>
        match pkClause primary_key other_columns with
        | .error e => .error e
        | .ok pkDefs =>
            let defs := colDefs ++
              ["embedding VECTOR(" ++ toString vector_dim ++ ") NOT NULL"] ++
              pkDefs ++
              ["VECTOR INDEX `" ++ index_name ++ "` (embedding) M=:m DISTANCE=" ++
                pyUpper distance_metric]
            let sql := "CREATE TABLE " ++ table_name ++ " ( " ++
              String.intercalate ",n" defs ++ " ) ENGINE=InnoDB;"
            .ok (.created sql [("m", .vint m)], db ++ [table_name])

/-- Python dict assignment `params[k] = v` on an association list with
unique keys: the value at `k` is replaced, the key order unchanged. -/
def setKey (d : Params) (k : String) (v : Val) : Params :=
  d.map (fun p => if p.1 = k then (p.1, v) else p)

/-- Value placeholder for one column, as both `insert_vector` and
`batch_insert_vectors` emit it: the `embedding` column is wrapped in the
engine's `VEC_FromText` constructor applied to its named placeholder, any
other column binds directly as `:name`. -/
def placeholderFor (c : String) : String :=
  if c = "embedding" then "VEC_FromText(:embedding)" else ":" ++ c

/-- The loop over `params.keys()` in `DIEM.insert_vector`: every key must
pass `isidentifier`; the column list collects the keys and the placeholder
list binds each via `placeholderFor`. -/
def buildColsPh : List String → Except DBError (List String × List String)
  | [] => .ok ([], [])
  | c :: rest =>
      if pyIsIdentifier c then
        match buildColsPh rest with
        | .error e => .error e
        | .ok (cs, ps) => .ok (c :: cs, placeholderFor c :: ps)
      else
        .error (.invalidIdentifier c)

/-- `DIEM.insert_vector` of `src/DIEM/DIEM.py`.  Order is the source's:
table-name validation; presence of the `embedding` key in `data`;
`json.dumps` of the embedding value (`TypeError` rejected); the column
loop; then the INSERT text with every value bound as a named parameter. -/
def insert_vector (table_name : String) (data : Params) :
    Except DBError (String × Params) :=
  if !pyIsIdentifier table_name then
    .error (.invalidIdentifier table_name)
  else
    match data.lookup "embedding" with
    | none => .error (.serialization "embedding key missing")
    | some emb =>
        match jsonDumps emb with
        | none => .error (.serialization "embedding not JSON-serializable")
        | some es =>
            let params := setKey data "embedding" (.vstr es)
            match buildColsPh (params.map Prod.fst) with
            | .error e => .error e
            | .ok (cols, phs) =>
                .ok ("INSERT INTO " ++ table_name ++ " (" ++
                  String.intercalate ", " cols ++ ") VALUES (" ++
                  String.intercalate ", " phs ++ ");", params)

/-- `DIEM.similarity_search` of `src/DIEM/DIEM.py`: the metric dispatch
chooses the engine distance function (anything outside cosine/euclidean,
case-insensitively, is rejected before any serialization or I/O); the query
vector is `json.dumps`-serialized; the SELECT orders by the distance
expression with the vector and the limit bound as parameters. -/
def similarity_search (table_name : String) (query_vector : Val)
    (distance_metric : String) (top_k : Int) :
    Except DBError (String × Params) :=
  let dist_sql : Option String :=
    if pyLower distance_metric = "cosine" then
      some "VEC_DISTANCE_COSINE(embedding, VEC_FromText(:query_vec))"
    else if pyLower distance_metric = "euclidean" then
      some "VEC_DISTANCE_EUCLIDEAN(embedding, VEC_FromText(:query_vec))"
    else none
  match dist_sql with
  | none => .error (.invalidMetric distance_metric)
  | some d =>
      match jsonDumps query_vector with
      | none => .error (.serialization "query_vector not JSON-serializable")
      | some qs =>
          .ok ("SELECT *, " ++ d ++ " AS distance FROM " ++ table_name ++
            " ORDER BY distance ASC LIMIT :top_k;",
            [("query_vec", .vstr qs), ("top_k", .vint top_k)])

/-- `DIEM.delete_vectors` of `src/DIEM/DIEM.py`: table-name validation,
then the mandatory-WHERE guard (`if not where_clause:` — `None` and the
empty string are both rejected), then the DELETE text with the caller's
filter clause appended and the caller's parameters passed through. -/
def delete_vectors (table_name : String) (where_clause : Option String)
    (params : Params) : Except DBError (String × Params) :=
  if !pyIsIdentifier table_name then
    .error (.invalidIdentifier table_name)
  else if !strTruthy where_clause then
    .error (.unsafeMutation "WHERE clause required")
  else
    .ok ("DELETE FROM " ++ table_name ++ " WHERE " ++ where_clause.getD "" ++ ";",
      params)

/-- SET expression for one column of `DIEM.update_vector`: the `embedding`
column goes through `VEC_FromText`, any other column binds its `set_<col>`
parameter directly. -/
def setExprFor (col : String) : String :=
  if col = "embedding" then "embedding = VEC_FromText(:set_embedding)"
  else col ++ " = :set_" ++ col

/-- Parameter value bound for one column of `DIEM.update_vector`: the
`embedding` column's value is `json.dumps`-serialized (a `TypeError`
yields `none`), any other value is bound as supplied. -/
def setParamFor (col : String) (v : Val) : Option Val :=
  if col = "embedding" then (jsonDumps v).map Val.vstr else some v

/-- The loop over `data.items()` in `DIEM.update_vector`: each column name
must pass `isidentifier` and yields the SET expression `setExprFor col`
binding the parameter `set_<col>` to `setParamFor col v` (a serialization
failure on the embedding value rejects the whole call). -/
def buildSet : List (String × Val) → Except DBError (List String × Params)
  | [] => .ok ([], [])
  | (col, v) :: rest =>
      if !pyIsIdentifier col then
        .error (.invalidIdentifier col)
      else
        match setParamFor col v with
        | none => .error (.serialization "embedding not JSON-serializable")
        | some pv =>
            match buildSet rest with
            | .error e => .error e
            | .ok (exprs, ps) =>
                .ok (setExprFor col :: exprs, ("set_" ++ col, pv) :: ps)

/-- `DIEM.update_vector` of `src/DIEM/DIEM.py`: table-name validation, the
mandatory-WHERE guard, the non-empty-data guard, the SET loop, then the
UPDATE text with the caller's filter clause appended; the final parameter
map merges the SET bindings with the caller's WHERE parameters. -/
def update_vector (table_name : String) (data : List (String × Val))
    (where_clause : Option String) (params : Params) :
    Except DBError (String × Params) :=
  if !pyIsIdentifier table_name then
    .error (.invalidIdentifier table_name)
  else if !strTruthy where_clause then
    .error (.unsafeMutation "WHERE clause required")
  else if data.isEmpty then
    .error (.valueError "No data provided to update")
  else
    match buildSet data with
    | .error e => .error e
    | .ok (exprs, setParams) =>
        .ok ("UPDATE " ++ table_name ++ " SET " ++
          String.intercalate ", " exprs ++ " WHERE " ++ where_clause.getD "" ++ ";",
          setParams ++ params)

/-- The shape of every INSERT text `insert_vector` can emit, as a function
of the table name and the Row Data key sequence alone (no value occurs in
it). -/
def insertSqlOfKeys (table_name : String) (ks : List String) : String :=
  "INSERT INTO " ++ table_name ++ " (" ++ String.intercalate ", " ks ++
    ") VALUES (" ++ String.intercalate ", " (ks.map placeholderFor) ++ ");"

/-- The shape of every UPDATE text `update_vector` can emit, as a function
of the table name, the Row Data key sequence and the caller's filter clause
alone (no value occurs in it). -/
def updateSqlOfKeys (table_name : String) (ks : List String) (w : String) : String :=
  "UPDATE " ++ table_name ++ " SET " ++
    String.intercalate ", " (ks.map setExprFor) ++ " WHERE " ++ w ++ ";"

/-- A stored table, as the rows it holds. -/
abbrev TableRows := List Params

/-- Running a built mutation against a table under an arbitrary engine
semantics `engine`: a rejected build executes nothing, so the table is
returned unchanged; only an `ok` statement reaches the engine. -/
def applyStmt (engine : String → Params → TableRows → TableRows)
    (tbl : TableRows) : Except DBError (String × Params) → TableRows
  | .error _ => tbl
  | .ok (s, p) => engine s p tbl

/-! ### Batch insert from a CSV file

The CSV file is modelled as its header (`fieldnames`) plus the data rows,
each row an association list from header column to cell string, as
`csv.DictReader` yields them (every header column is present in every
row).  `json.loads` on a cell and per-statement engine success are
external, so they are parameters (`jsonOk`, `engineOk`). -/

/-- One CSV row: column name to cell text. -/
abbrev Row := List (String × String)

/-- Association-list lookup with the empty string as default (DictReader
rows carry every header column, so the default is never hit on the rows the
loop builds). -/
def lookupD (r : Row) (k : String) : String :=
  (r.lookup k).getD ""

/-- The dict comprehension `{col: row[col] for col in columns}`. -/
def paramsFor (cols : List String) (r : Row) : Row :=
  cols.map (fun c => (c, lookupD r c))

/-- The INSERT text `DIEM.batch_insert_vectors` prepares once per batch,
from the identifier-filtered column list. -/
def batchInsertSql (table_name : String) (cols : List String) : String :=
  "INSERT INTO " ++ table_name ++ " (" ++ String.intercalate ", " cols ++
    ") VALUES (" ++ String.intercalate ", " (cols.map placeholderFor) ++ ");"

/-- Outcome of one batch: a header rejection (empty file or no `embedding`
column — nothing executed), a rollback (an engine failure aborted the open
transaction), or a commit reporting how many rows were applied and how many
were skipped. -/
inductive BatchOutcome where
  | headerError
  | rolledBack
  | committed : Nat → Nat → BatchOutcome
deriving DecidableEq, Repr

/-- The per-row loop of `DIEM.batch_insert_vectors`, inside the open
transaction: build the row's parameter map; if its `embedding` cell is not
parseable JSON, skip the row and continue; otherwise execute the prepared
statement — an engine failure raises, aborting the whole loop.  On success
the applied parameter maps (in order) and the skipped-row count are
returned. -/
def batchLoop (jsonOk : String → Bool) (engineOk : String → Row → Bool)
    (sql : String) (cols : List String) : List Row → Except Unit (List Row × Nat)
  | [] => .ok ([], 0)
  | r :: rest =>
      let params := paramsFor cols r
      if !jsonOk (lookupD params "embedding") then
        match batchLoop jsonOk engineOk sql cols rest with
        | .error e => .error e
        | .ok (a, k) => .ok (a, k + 1)
      else if engineOk sql params then
        match batchLoop jsonOk engineOk sql cols rest with
        | .error e => .error e
        | .ok (a, k) => .ok (params :: a, k)
      else
        .error ()

/-- `DIEM.batch_insert_vectors` of `src/DIEM/DIEM.py`: reject an empty or
`embedding`-less header; keep only header columns passing `isidentifier`;
prepare one INSERT over those columns; run the row loop inside one
transaction — on an engine failure the transaction is rolled back and the
table keeps exactly its prior rows, otherwise the applied rows are
committed and the inserted count reported. -/
def batch_insert_vectors (jsonOk : String → Bool) (engineOk : String → Row → Bool)
    (table_name : String) (fieldnames : List String) (rows : List Row)
    (tbl : List Row) : BatchOutcome × List Row :=
  if fieldnames.isEmpty then
    (.headerError, tbl)
  else if !fieldnames.contains "embedding" then
    (.headerError, tbl)
  else
    let cols := fieldnames.filter pyIsIdentifier
    match batchLoop jsonOk engineOk (batchInsertSql table_name cols) cols rows with
    | .error _ => (.rolledBack, tbl)
    | .ok (applied, skipped) => (.committed applied.length skipped, tbl ++ applied)

end DIEMSpec.DIEMv

namespace DIEMSpec.DIEM1

/-- The INSERT text `DIEM.batch_insert_vectors` in `src/DIEM.py` builds for
each row (constant across the batch: all three values are bound as named
parameters). -/
def rowInsertSql (table_name : String) : String :=
  "INSERT INTO " ++ table_name ++
    " (name, description, embedding) VALUES (:name, :description, VEC_FromText(:embedding));"

/-- The per-row loop of `DIEM.batch_insert_vectors` in `src/DIEM.py`.  The
CSV rows are modelled as the `(name, description, embedding)` cell triples
the loop reads (`row["name"]`, `row["description"]`, `row["embedding"]`),
each `.strip()`-ed.  A row whose embedding is not parseable JSON is skipped
and the loop continues; otherwise the parameterized INSERT is executed —
an engine failure raises, aborting the loop. -/
def batchLoop (jsonOk : String → Bool)
    (engineOk : String → List (String × String) → Bool) (table_name : String) :
    List (String × String × String) → Except Unit (List (List (String × String)) × Nat)
  | [] => .ok ([], 0)
  | (name, desc, emb) :: rest =>
      if !jsonOk (pyStrip emb) then
        match batchLoop jsonOk engineOk table_name rest with
        | .error e => .error e
        | .ok (a, k) => .ok (a, k + 1)
      else
        let params := [("name", pyStrip name), ("description", pyStrip desc),
          ("embedding", pyStrip emb)]
        if engineOk (rowInsertSql table_name) params then
          match batchLoop jsonOk engineOk table_name rest with
          | .error e => .error e
          | .ok (a, k) => .ok (params :: a, k)
        else
          .error ()

/-- `DIEM.batch_insert_vectors` of `src/DIEM.py`: the row loop runs on one
connection with a single `conn.commit()` after the loop.  When the loop
raises (engine failure), control reaches the outer handler with the commit
never issued, and closing the connection rolls the uncommitted work back —
the table keeps exactly its prior rows.  On success the applied rows are
committed and the inserted count reported. -/
def batch_insert_vectors (jsonOk : String → Bool)
    (engineOk : String → List (String × String) → Bool) (table_name : String)
    (rows : List (String × String × String))
    (tbl : List (List (String × String))) :
    DIEMv.BatchOutcome × List (List (String × String)) :=
  match batchLoop jsonOk engineOk table_name rows with
  | .error _ => (.rolledBack, tbl)
  | .ok (applied, skipped) => (.committed applied.length skipped, tbl ++ applied)

end DIEMSpec.DIEM1

namespace DIEMSpec

/-! ## Helper lemmas -/

/-- Dict assignment leaves the key sequence unchanged. -/
theorem setKey_keys (d : Params) (k : String) (v : Val) :
    (DIEMv.setKey d k v).map Prod.fst = d.map Prod.fst := by
  induction d with
  | nil => rfl
  | cons p rest ih =>
      simp only [DIEMv.setKey, List.map_cons] at ih ⊢
      rw [ih]
      by_cases h : p.1 = k <;> simp [h]

/-- With every key valid, the `insert_vector` column loop returns the key
list itself with its placeholders; in particular a successful result is
determined by the key list alone. -/
theorem buildColsPh_ok (ks : List String) (r : List String × List String)
    (h : DIEMv.buildColsPh ks = .ok r) : r = (ks, ks.map DIEMv.placeholderFor) := by
  induction ks generalizing r with
  | nil => exact (Except.ok.inj h).symm
  | cons c rest ih =>
      by_cases hc : pyIsIdentifier c
      · simp only [DIEMv.buildColsPh, hc, if_true] at h
        cases hrest : DIEMv.buildColsPh rest with
        | error e => rw [hrest] at h; exact absurd h (by simp)
        | ok pr =>
            rw [hrest] at h
            obtain ⟨cs, ps⟩ := pr
            have hpr := ih (cs, ps) hrest
            simp only [Prod.mk.injEq] at hpr
            obtain ⟨hcs, hps⟩ := hpr
            rw [← Except.ok.inj h, hcs, hps, List.map_cons]
      · simp [DIEMv.buildColsPh, hc] at h

/-- Every key surviving the `insert_vector` column loop passed
`isidentifier`. -/
theorem buildColsPh_valid (ks : List String) (r : List String × List String)
    (h : DIEMv.buildColsPh ks = .ok r) :
    ∀ k ∈ ks, pyIsIdentifier k = true := by
  induction ks generalizing r with
  | nil => simp
  | cons c rest ih =>
      intro k hk
      by_cases hc : pyIsIdentifier c
      · rcases List.mem_cons.mp hk with rfl | hk
        · exact hc
        · simp only [DIEMv.buildColsPh, hc, if_true] at h
          cases hrest : DIEMv.buildColsPh rest with
          | error e => rw [hrest] at h; exact absurd h (by simp)
          | ok pr => exact ih pr hrest k hk
      · simp [DIEMv.buildColsPh, hc] at h

/-- Every column surviving the `create_table` column loop passed
`isidentifier`. -/
theorem buildColumnDefs_valid (oc : List (String × String)) (ds : List String)
    (h : DIEMv.buildColumnDefs oc = .ok ds) :
    ∀ c ∈ oc, pyIsIdentifier c.1 = true := by
  induction oc generalizing ds with
  | nil => simp
  | cons p rest ih =>
      intro c hc
      by_cases hp : pyIsIdentifier p.1
      · rcases List.mem_cons.mp hc with rfl | hc
        · exact hp
        · simp only [DIEMv.buildColumnDefs, hp, if_true] at h
          cases hrest : DIEMv.buildColumnDefs rest with
          | error e => rw [hrest] at h; exact absurd h (by simp)
          | ok dr => exact ih dr hrest c hc
      · simp [DIEMv.buildColumnDefs, hp] at h

/-- Every column surviving the `update_vector` SET loop passed
`isidentifier`. -/
theorem buildSet_valid (d : List (String × Val)) (r : List String × Params)
    (h : DIEMv.buildSet d = .ok r) :
    ∀ c ∈ d.map Prod.fst, pyIsIdentifier c = true := by
  induction d generalizing r with
  | nil => simp
  | cons p rest ih =>
      obtain ⟨col, v⟩ := p
      intro c hc
      by_cases hp : pyIsIdentifier col
      · simp only [List.map_cons, List.mem_cons] at hc
        rcases hc with rfl | hc
        · exact hp
        · simp only [DIEMv.buildSet, hp, Bool.not_true, Bool.false_eq_true,
            if_false] at h
          cases hsp : DIEMv.setParamFor col v with
          | none => rw [hsp] at h; exact absurd h (by simp)
          | some pv =>
              rw [hsp] at h
              cases hrest : DIEMv.buildSet rest with
              | error e => rw [hrest] at h; exact absurd h (by simp)
              | ok pr => exact ih pr hrest c hc
      · simp [DIEMv.buildSet, hp] at h

/-- The SET expression list produced by the `update_vector` loop is the
column-name sequence mapped through `setExprFor`: it does not depend on the
values bound. -/
theorem buildSet_exprs (d : List (String × Val)) (e : List String) (p : Params)
    (h : DIEMv.buildSet d = .ok (e, p)) :
    e = (d.map Prod.fst).map DIEMv.setExprFor := by
  induction d generalizing e p with
  | nil =>
      have := Except.ok.inj h
      simp only [Prod.mk.injEq] at this
      rw [← this.1]; rfl
  | cons pr rest ih =>
      obtain ⟨col, v⟩ := pr
      by_cases hp : pyIsIdentifier col
      · simp only [DIEMv.buildSet, hp, Bool.not_true, Bool.false_eq_true,
          if_false] at h
        cases hsp : DIEMv.setParamFor col v with
        | none => rw [hsp] at h; exact absurd h (by simp)
        | some pv =>
            rw [hsp] at h
            cases hrest : DIEMv.buildSet rest with
            | error e2 => rw [hrest] at h; exact absurd h (by simp)
            | ok prr =>
                rw [hrest] at h
                obtain ⟨er, psr⟩ := prr
                have hinj := Except.ok.inj h
                simp only [Prod.mk.injEq] at hinj
                rw [← hinj.1, List.map_cons, List.map_cons,
                  ih er psr hrest]
      · simp [DIEMv.buildSet, hp] at h

/-- Whenever `insert_vector` hands a statement to the engine, its text is
`insertSqlOfKeys` of the Row Data key sequence: the values influence only
the parameter map. -/
theorem insert_vector_sql (t : String) (d : Params) (r : String × Params)
    (h : DIEMv.insert_vector t d = .ok r) :
    r.1 = DIEMv.insertSqlOfKeys t (d.map Prod.fst) := by
  by_cases ht : pyIsIdentifier t
  · simp only [DIEMv.insert_vector, ht, Bool.not_true, Bool.false_eq_true,
      if_false] at h
    cases hl : d.lookup "embedding" with
    | none => simp [hl] at h
    | some emb =>
        simp only [hl] at h
        cases hj : jsonDumps emb with
        | none => simp [hj] at h
        | some es =>
            simp only [hj] at h
            cases hb : DIEMv.buildColsPh
                ((DIEMv.setKey d "embedding" (.vstr es)).map Prod.fst) with
            | error e => simp [hb] at h
            | ok pr =>
                simp only [hb] at h
                obtain ⟨cols, phs⟩ := pr
                have hpr := buildColsPh_ok _ _ hb
                simp only [Prod.mk.injEq] at hpr
                obtain ⟨hcols, hphs⟩ := hpr
                rw [← Except.ok.inj h]
                simp only [DIEMv.insertSqlOfKeys, hcols, hphs, setKey_keys]
  · simp [DIEMv.insert_vector, ht] at h

/-- Whenever `update_vector` hands a statement to the engine, its text is
`updateSqlOfKeys` of the Row Data key sequence and the filter clause: the
values influence only the parameter map. -/
theorem update_vector_sql (t : String) (d : List (String × Val))
    (w : Option String) (p : Params) (r : String × Params)
    (h : DIEMv.update_vector t d w p = .ok r) :
    r.1 = DIEMv.updateSqlOfKeys t (d.map Prod.fst) (w.getD "") := by
  by_cases ht : pyIsIdentifier t
  · by_cases hw : strTruthy w
    · by_cases hd : d.isEmpty
      · simp [DIEMv.update_vector, ht, hw, hd] at h
      · simp only [DIEMv.update_vector, ht, hw, hd, Bool.not_true,
          Bool.false_eq_true, if_false, if_true] at h
        cases hb : DIEMv.buildSet d with
        | error e => rw [hb] at h; exact absurd h (by simp)
        | ok pr =>
            rw [hb] at h
            obtain ⟨exprs, setParams⟩ := pr
            have hexprs := buildSet_exprs _ _ _ hb
            rw [← Except.ok.inj h]
            simp only [DIEMv.updateSqlOfKeys, hexprs]
    · simp [DIEMv.update_vector, ht, hw] at h
  · simp [DIEMv.update_vector, ht] at h

/-- The parameter map built for a row carries exactly the requested
columns, in order. -/
theorem paramsFor_keys (cols : List String) (r : DIEMv.Row) :
    (DIEMv.paramsFor cols r).map Prod.fst = cols := by
  simp [DIEMv.paramsFor, List.map_map, Function.comp_def]

/-- Looking a requested column up in the built parameter map gives the
row's own cell for that column. -/
theorem lookupD_paramsFor (cols : List String) (r : DIEMv.Row) (c : String)
    (h : c ∈ cols) : DIEMv.lookupD (DIEMv.paramsFor cols r) c = DIEMv.lookupD r c := by
  induction cols with
  | nil => simp at h
  | cons c0 rest ih =>
      by_cases hc : c = c0
      · simp [DIEMv.paramsFor, DIEMv.lookupD, List.lookup, hc]
      · rcases List.mem_cons.mp h with rfl | hmem
        · exact absurd rfl hc
        · have hrec := ih hmem
          have hbeq : (c == c0) = false := by simpa using hc
          simp only [DIEMv.paramsFor, List.map_cons, DIEMv.lookupD,
            List.lookup, hbeq] at hrec ⊢
          exact hrec

/-- Splitting a list by a Boolean predicate preserves its length. -/
theorem length_filter_not_add (l : List α) (p : α → Bool) :
    (l.filter p).length + (l.filter (fun a => !p a)).length = l.length := by
  induction l with
  | nil => rfl
  | cons a rest ih =>
      by_cases hp : p a <;> simp [List.filter, hp, ← ih] <;> omega

/-- With an engine that accepts every statement, the batch loop of
`src/DIEM/DIEM.py` commits exactly the well-formed rows (in order) and
skips exactly the malformed ones. -/
theorem DIEMv_batchLoop_total (jsonOk : String → Bool)
    (engineOk : String → DIEMv.Row → Bool) (sql : String) (cols : List String)
    (rows : List DIEMv.Row) (heng : ∀ s p, engineOk s p = true) :
    DIEMv.batchLoop jsonOk engineOk sql cols rows =
      .ok (((rows.filter (fun r => jsonOk (DIEMv.lookupD (DIEMv.paramsFor cols r) "embedding"))).map
          (DIEMv.paramsFor cols)),
        (rows.filter (fun r => !jsonOk (DIEMv.lookupD (DIEMv.paramsFor cols r) "embedding"))).length) := by
  induction rows with
  | nil => rfl
  | cons r rest ih =>
      by_cases hj : jsonOk (DIEMv.lookupD (DIEMv.paramsFor cols r) "embedding")
      · simp [DIEMv.batchLoop, hj, heng, ih, List.filter]
      · simp [DIEMv.batchLoop, hj, ih, List.filter]

/-- Whatever the engine does, every parameter map the batch loop of
`src/DIEM/DIEM.py` applied was built over exactly the filtered column
list. -/
theorem DIEMv_batchLoop_applied_keys (jsonOk : String → Bool)
    (engineOk : String → DIEMv.Row → Bool) (sql : String) (cols : List String)
    (rows : List DIEMv.Row) (a : List DIEMv.Row) (k : Nat)
    (h : DIEMv.batchLoop jsonOk engineOk sql cols rows = .ok (a, k)) :
    ∀ p ∈ a, p.map Prod.fst = cols := by
  induction rows generalizing a k with
  | nil =>
      have := Except.ok.inj h
      simp only [Prod.mk.injEq] at this
      rw [← this.1]; simp
  | cons r rest ih =>
      intro p hp
      by_cases hj : jsonOk (DIEMv.lookupD (DIEMv.paramsFor cols r) "embedding")
      · simp only [DIEMv.batchLoop, hj, if_true, Bool.not_true,
          Bool.false_eq_true, if_false] at h
        by_cases he : engineOk sql (DIEMv.paramsFor cols r)
        · simp only [he, if_true] at h
          cases hrest : DIEMv.batchLoop jsonOk engineOk sql cols rest with
          | error e => rw [hrest] at h; exact absurd h (by simp)
          | ok pr =>
              rw [hrest] at h
              obtain ⟨ar, kr⟩ := pr
              have hinj := Except.ok.inj h
              simp only [Prod.mk.injEq] at hinj
              rw [← hinj.1] at hp
              rcases List.mem_cons.mp hp with rfl | hmem
              · exact paramsFor_keys cols r
              · exact ih ar kr hrest p hmem
        · simp [he] at h
      · simp only [DIEMv.batchLoop, hj, Bool.not_false, if_true] at h
        cases hrest : DIEMv.batchLoop jsonOk engineOk sql cols rest with
        | error e => rw [hrest] at h; exact absurd h (by simp)
        | ok pr =>
            rw [hrest] at h
            obtain ⟨ar, kr⟩ := pr
            have hinj := Except.ok.inj h
            simp only [Prod.mk.injEq] at hinj
            rw [← hinj.1] at hp
            exact ih ar kr hrest p hp

/-- With an engine that accepts every statement, the batch loop of
`src/DIEM.py` commits exactly the rows with parseable embeddings and skips
exactly the malformed ones. -/
theorem DIEM1_batchLoop_total (jsonOk : String → Bool)
    (engineOk : String → List (String × String) → Bool) (t : String)
    (rows : List (String × String × String)) (heng : ∀ s p, engineOk s p = true) :
    DIEM1.batchLoop jsonOk engineOk t rows =
      .ok ((rows.filter (fun r => jsonOk (pyStrip r.2.2))).map
          (fun r => [("name", pyStrip r.1), ("description", pyStrip r.2.1), ("embedding", pyStrip r.2.2)]),
        (rows.filter (fun r => !jsonOk (pyStrip r.2.2))).length) := by
  induction rows with
  | nil => rfl
  | cons r rest ih =>
      obtain ⟨name, desc, emb⟩ := r
      by_cases hj : jsonOk (pyStrip emb)
      · simp [DIEM1.batchLoop, hj, heng, ih, List.filter]
      · simp [DIEM1.batchLoop, hj, ih, List.filter]

/-- A character in the regex class `[A-Za-z_]` is an identifier-start
character. -/
theorem regexStart_imp (c : Char)
    (h : (('A' ≤ c && c ≤ 'Z') || ('a' ≤ c && c ≤ 'z') || c = '_') = true) :
    isIdentStartA c = true := by
  simp only [Bool.or_eq_true, Bool.and_eq_true, decide_eq_true_eq] at h
  simp only [isIdentStartA, Bool.or_eq_true, decide_eq_true_eq]
  rcases h with (⟨h1, h2⟩ | ⟨h1, h2⟩) | h3
  · left
    simp only [Char.isAlpha, Char.isUpper, Char.isLower, Bool.or_eq_true,
      Bool.and_eq_true, decide_eq_true_eq]
    exact Or.inl ⟨h1, h2⟩
  · left
    simp only [Char.isAlpha, Char.isUpper, Char.isLower, Bool.or_eq_true,
      Bool.and_eq_true, decide_eq_true_eq]
    exact Or.inr ⟨h1, h2⟩
  · right; exact h3

/-- A character in the regex class `[A-Za-z0-9_]` is an
identifier-continue character. -/
theorem regexCont_imp (c : Char)
    (h : (('A' ≤ c && c ≤ 'Z') || ('a' ≤ c && c ≤ 'z') ||
      ('0' ≤ c && c ≤ '9') || c = '_') = true) :
    isIdentContA c = true := by
  simp only [Bool.or_eq_true, Bool.and_eq_true, decide_eq_true_eq] at h
  simp only [isIdentContA, Bool.or_eq_true, decide_eq_true_eq]
  rcases h with ((⟨h1, h2⟩ | ⟨h1, h2⟩) | ⟨h1, h2⟩) | h3
  · left
    simp only [Char.isAlphanum, Char.isAlpha, Char.isUpper, Char.isLower,
      Char.isDigit, Bool.or_eq_true, Bool.and_eq_true, decide_eq_true_eq]
    exact Or.inl (Or.inl ⟨h1, h2⟩)
  · left
    simp only [Char.isAlphanum, Char.isAlpha, Char.isUpper, Char.isLower,
      Char.isDigit, Bool.or_eq_true, Bool.and_eq_true, decide_eq_true_eq]
    exact Or.inl (Or.inr ⟨h1, h2⟩)
  · left
    simp only [Char.isAlphanum, Char.isAlpha, Char.isUpper, Char.isLower,
      Char.isDigit, Bool.or_eq_true, Bool.and_eq_true, decide_eq_true_eq]
    exact Or.inr ⟨h1, h2⟩
  · right; exact h3

/-- No SQL-significant punctuation character is an identifier character,
in either position. -/
theorem sqlPunct_not_ident :
    ∀ c ∈ sqlPunct, isIdentStartA c = false ∧ isIdentContA c = false := by
  decide

/-- Whenever `similarity_search` hands a statement to the engine, its text
is a function of the table name and metric alone: the query vector and the
result limit are bound as parameters. -/
theorem similarity_search_sql (t : String) (q : Val) (met : String) (k : Int)
    (r : String × Params) (h : DIEMv.similarity_search t q met k = .ok r) :
    r.1 = "SELECT *, " ++
      (if pyLower met = "cosine" then
        "VEC_DISTANCE_COSINE(embedding, VEC_FromText(:query_vec))"
      else "VEC_DISTANCE_EUCLIDEAN(embedding, VEC_FromText(:query_vec))") ++
      " AS distance FROM " ++ t ++ " ORDER BY distance ASC LIMIT :top_k;" := by
  by_cases hc : pyLower met = "cosine"
  · simp only [DIEMv.similarity_search, hc, if_true] at h
    cases hj : jsonDumps q with
    | none => simp [hj] at h
    | some qs =>
        simp only [hj] at h
        rw [← Except.ok.inj h, if_pos hc]
  · by_cases he : pyLower met = "euclidean"
    · simp only [DIEMv.similarity_search, hc, he, if_true, if_false] at h
      cases hj : jsonDumps q with
      | none => simp [hj] at h
      | some qs =>
          simp only [hj] at h
          rw [← Except.ok.inj h, if_neg hc]
    · simp [DIEMv.similarity_search, hc, he] at h

/-- Whenever `delete_vectors` of `src/DIEM/DIEM.py` hands a statement to
the engine, its text is a function of the table name and the caller's
filter clause alone: the filter parameters are bound, not inlined. -/
theorem delete_vectors_sql (t : String) (w : Option String) (p : Params)
    (r : String × Params) (h : DIEMv.delete_vectors t w p = .ok r) :
    r.1 = "DELETE FROM " ++ t ++ " WHERE " ++ w.getD "" ++ ";" := by
  by_cases ht : pyIsIdentifier t
  · by_cases hw : strTruthy w
    · simp only [DIEMv.delete_vectors, ht, hw, Bool.not_true,
        Bool.false_eq_true, if_false] at h
      rw [← Except.ok.inj h]
    · simp [DIEMv.delete_vectors, ht, hw] at h
  · simp [DIEMv.delete_vectors, ht] at h

/-- Whenever `create_table` of `src/DIEM.py` hands a statement to the
engine, its text is a function of the table name, dimension and metric
alone: the index tuning value `m` is bound as the parameter `:m`. -/
theorem DIEM1_create_table_sql (db : List String) (t : String) (dim : Nat)
    (met : String) (m : Int) (r : String × Params × List String)
    (h : DIEM1.create_table db t dim met m = .ok r) :
    r.1 = "CREATE TABLE IF NOT EXISTS " ++ t ++
      " ( doc_id BIGINT UNSIGNED PRIMARY KEY, embedding VECTOR(" ++
      toString dim ++ ") NOT NULL, VECTOR INDEX (embedding) M=:m DISTANCE=" ++
      met ++ " ) ENGINE=InnoDB;" := by
  simp only [DIEM1.create_table] at h
  split at h
  · exact absurd h (by simp)
  · rw [← Except.ok.inj h]

/-- Inversion for a successful CREATE in `src/DIEM/DIEM.py`: the table was
new, every inlined identifier had passed validation, and the catalog gained
exactly the new table. -/
theorem create_table_created (db : List String) (t : String) (dim : Nat)
    (oc : List (String × String)) (pk : Option String) (met : String)
    (m : Int) (idx : String) (s : String) (p : Params) (db2 : List String)
    (h : DIEMv.create_table db t dim oc pk met m idx = .ok (.created s p, db2)) :
    db2 = db ++ [t] ∧ pyIsIdentifier t = true ∧ pyIsIdentifier idx = true ∧
      (∀ c ∈ oc, pyIsIdentifier c.1 = true) ∧
      (∀ k, pk = some k → pyIsIdentifier k = true) := by
  simp only [DIEMv.create_table] at h
  by_cases hdb : db.contains t = true
  · rw [if_pos hdb] at h
    exact absurd h (by simp)
  · rw [if_neg hdb] at h
    by_cases ht : pyIsIdentifier t
    · by_cases hidx : pyIsIdentifier idx
      · by_cases hmet : ["cosine", "euclidean"].contains (pyLower met) = true
        · have hmetn : ¬((! (["cosine", "euclidean"].contains (pyLower met))) = true) := by
            rcases (by simpa using hmet :
              pyLower met = "cosine" ∨ pyLower met = "euclidean") with hm | hm <;>
              simp [hm]
          rw [if_neg (by simp [ht]), if_neg (by simp [hidx]), if_neg hmetn] at h
          cases hc : DIEMv.buildColumnDefs oc with
          | error e => simp [hc] at h
          | ok colDefs =>
              simp only [hc] at h
              cases hp : DIEMv.pkClause pk oc with
              | error e => simp [hp] at h
              | ok pkDefs =>
                  simp only [hp, Except.ok.injEq, Prod.mk.injEq,
                    DIEMv.CreateResult.created.injEq] at h
                  refine ⟨h.2.symm, ht, hidx,
                    buildColumnDefs_valid oc colDefs hc, ?_⟩
                  intro k hk
                  rw [hk] at hp
                  by_cases hkv : pyIsIdentifier k
                  · exact hkv
                  · simp [DIEMv.pkClause, hkv] at hp
        · rw [if_neg (by simp [ht]), if_neg (by simp [hidx]),
            if_pos (by simpa using hmet)] at h
          exact absurd h (by simp)
      · rw [if_neg (by simp [ht]), if_pos (by simp [hidx])] at h
        exact absurd h (by simp)
    · rw [if_pos (by simp [ht])] at h
      exact absurd h (by simp)

/-! ## The claims -/

/-- C7: identifier validation (Python's `str.isidentifier`, the gate every
operation of `src/DIEM/DIEM.py` applies) accepts every string matching
`[A-Za-z_][A-Za-z0-9_]*` and rejects every string containing a semicolon,
a quote character, or SQL keyword-adjacent punctuation. -/
theorem c7_identifier_validation :
    (∀ s : String, identRegexAccepts s = true → pyIsIdentifier s = true) ∧
    (∀ (s : String) (c : Char), c ∈ sqlPunct → c ∈ s.data →
      pyIsIdentifier s = false) := by
  constructor
  · intro s h
    cases hd : s.data with
    | nil => simp [identRegexAccepts, hd] at h
    | cons c cs =>
        simp only [identRegexAccepts, hd, Bool.and_eq_true] at h
        obtain ⟨h1, h2⟩ := h
        simp only [pyIsIdentifier, hd, Bool.and_eq_true]
        refine ⟨regexStart_imp c h1, ?_⟩
        rw [List.all_eq_true] at h2 ⊢
        intro d hdmem
        exact regexCont_imp d (h2 d hdmem)
  · intro s c hpun hmem
    cases hd : s.data with
    | nil => rw [hd] at hmem; simp at hmem
    | cons c0 cs =>
        rw [hd] at hmem
        simp only [pyIsIdentifier, hd]
        rcases List.mem_cons.mp hmem with rfl | hmem2
        · simp [(sqlPunct_not_ident c hpun).1]
        · cases hall : cs.all isIdentContA with
          | false => simp [hall]
          | true =>
              rw [List.all_eq_true] at hall
              have hc := hall c hmem2
              rw [(sqlPunct_not_ident c hpun).2] at hc
              exact absurd hc (by simp)

/-- C7 witness: a concrete regex-matching identifier is accepted, and a
concrete semicolon-bearing injection attempt is rejected. -/
theorem c7_witness :
    pyIsIdentifier "product_embeddings_1" = true ∧
    pyIsIdentifier "products; DROP TABLE users" = false :=
  ⟨c7_identifier_validation.1 "product_embeddings_1" (by decide),
   c7_identifier_validation.2 "products; DROP TABLE users" ';' (by decide) (by decide)⟩

/-- C8: for every Row Data map without an `embedding` key, `insert_vector`
of `src/DIEM/DIEM.py` fails with its SerializationError-style rejection
before any statement is built or executed (the error result carries no
statement, so nothing reaches the engine). -/
theorem c8_missing_embedding_rejected (t : String) (d : Params)
    (ht : pyIsIdentifier t = true) (hd : d.lookup "embedding" = none) :
    DIEMv.insert_vector t d = .error (.serialization "embedding key missing") := by
  simp [DIEMv.insert_vector, ht, hd]

/-- C8 witness: a concrete embedding-less Row Data map is rejected. -/
theorem c8_witness :
    DIEMv.insert_vector "products" [("name", Val.vstr "widget")] =
      .error (.serialization "embedding key missing") :=
  c8_missing_embedding_rejected "products" [("name", Val.vstr "widget")]
    (by decide) (by decide)

/-- C9: create-table is idempotent.  In `src/DIEM/DIEM.py` a second call
with the same arguments finds the table in the catalog and returns the
"already exists" no-op without raising and without executing any CREATE
statement; in `src/DIEM.py` a second call re-issues `CREATE TABLE IF NOT
EXISTS`, which the engine no-ops on the existing table, leaving the catalog
unchanged and raising nothing. -/
theorem c9_create_table_idempotent :
    (∀ db t dim oc pk met m idx s p db2,
      DIEMv.create_table db t dim oc pk met m idx = .ok (.created s p, db2) →
      DIEMv.create_table db2 t dim oc pk met m idx = .ok (.alreadyExists, db2)) ∧
    (∀ db t dim met m s p db2,
      DIEM1.create_table db t dim met m = .ok (s, p, db2) →
      DIEM1.create_table db2 t dim met m = .ok (s, p, db2)) := by
  constructor
  · intro db t dim oc pk met m idx s p db2 h
    have hdb2 := (create_table_created db t dim oc pk met m idx s p db2 h).1
    have hmem : db2.contains t = true := by rw [hdb2]; simp
    simp only [DIEMv.create_table]
    rw [if_pos hmem]
  · intro db t dim met m s p db2 h
    simp only [DIEM1.create_table] at h ⊢
    by_cases hmet : ["cosine", "euclidean"].contains (pyLower met) = true
    · have hmetn : ¬((! (["cosine", "euclidean"].contains (pyLower met))) = true) := by
        rcases (by simpa using hmet :
          pyLower met = "cosine" ∨ pyLower met = "euclidean") with hm | hm <;>
          simp [hm]
      rw [if_neg hmetn] at h ⊢
      have hinj := Except.ok.inj h
      simp only [Prod.mk.injEq] at hinj
      obtain ⟨hs, hp2, hdb2⟩ := hinj
      have hmem : db2.contains t = true := by
        rw [← hdb2]
        by_cases hdbt : db.contains t = true
        · rw [if_pos hdbt]; exact hdbt
        · rw [if_neg hdbt]; simp
      rw [if_pos hmem, hs, hp2]
    · rw [if_pos (by simpa using hmet)] at h
      exact absurd h (by simp)

/-- C9 witness: creating a concrete table and immediately re-creating it
with identical arguments yields the no-op with the catalog unchanged. -/
theorem c9_witness :
    DIEMv.create_table ["products"] "products" 3 [("id", "INT")] (some "id")
      "cosine" 8 "vec_idx" = .ok (.alreadyExists, ["products"]) :=
  c9_create_table_idempotent.1 [] "products" 3 [("id", "INT")] (some "id")
    "cosine" 8 "vec_idx" _ _ _ rfl

/-- C2 counterexample: a table name that fails `isidentifier` (and
smuggles in a statement separator) reaches statement text unvalidated in
two distinct places — `create_table` of `src/DIEM.py` inlines it into the
CREATE text, and even in `src/DIEM/DIEM.py` (the variant with the
validation gate) `similarity_search` inlines it into the SELECT text with
no identifier check at all. -/
theorem c2_counterexample :
    DIEM1.create_table [] "x; DROP TABLE y" 3 "cosine" 8 =
      .ok ("CREATE TABLE IF NOT EXISTS x; DROP TABLE y ( doc_id BIGINT UNSIGNED PRIMARY KEY, embedding VECTOR(3) NOT NULL, VECTOR INDEX (embedding) M=:m DISTANCE=cosine ) ENGINE=InnoDB;",
        [("m", Val.vint 8)], ["x; DROP TABLE y"]) ∧
    DIEMv.similarity_search "x; DROP TABLE y" (Val.vlist [1]) "cosine" 5 =
      .ok ("SELECT *, VEC_DISTANCE_COSINE(embedding, VEC_FromText(:query_vec)) AS distance FROM x; DROP TABLE y ORDER BY distance ASC LIMIT :top_k;",
        [("query_vec", Val.vstr "[1]"), ("top_k", Val.vint 5)]) ∧
    pyIsIdentifier "x; DROP TABLE y" = false :=
  ⟨rfl, rfl, by decide⟩

/-- C2 amended: for the create-table, insert-vector, update-vector and
delete-vectors operations of `src/DIEM/DIEM.py`, every identifier inlined
into the statement text (table name, index name, extra-column names,
primary-key name, Row Data keys) has passed `isidentifier` whenever a
statement is produced.  The claim holds for no larger scope: it fails for
`src/DIEM.py` (`create_table` inlines the table name unvalidated) and
`src/DIEM2.py` (`create_index` likewise), and even within
`src/DIEM/DIEM.py` for `similarity_search` and `batch_insert_vectors`,
which inline the table name with no identifier check (see the
counterexample). -/
theorem c2_identifier_gate :
    (∀ db t dim oc pk met m idx s p db2,
      DIEMv.create_table db t dim oc pk met m idx = .ok (.created s p, db2) →
      pyIsIdentifier t = true ∧ pyIsIdentifier idx = true ∧
        (∀ c ∈ oc, pyIsIdentifier c.1 = true) ∧
        ∀ k, pk = some k → pyIsIdentifier k = true) ∧
    (∀ t d r, DIEMv.insert_vector t d = .ok r →
      pyIsIdentifier t = true ∧ ∀ c ∈ d.map Prod.fst, pyIsIdentifier c = true) ∧
    (∀ t d w p r, DIEMv.update_vector t d w p = .ok r →
      pyIsIdentifier t = true ∧ ∀ c ∈ d.map Prod.fst, pyIsIdentifier c = true) ∧
    (∀ t w p r, DIEMv.delete_vectors t w p = .ok r →
      pyIsIdentifier t = true) := by
  refine ⟨?_, ?_, ?_, ?_⟩
  · intro db t dim oc pk met m idx s p db2 h
    exact (create_table_created db t dim oc pk met m idx s p db2 h).2
  · intro t d r h
    by_cases ht : pyIsIdentifier t
    · refine ⟨ht, ?_⟩
      simp only [DIEMv.insert_vector, ht, Bool.not_true, Bool.false_eq_true,
        if_false] at h
      cases hl : d.lookup "embedding" with
      | none => simp [hl] at h
      | some emb =>
          simp only [hl] at h
          cases hj : jsonDumps emb with
          | none => simp [hj] at h
          | some es =>
              simp only [hj] at h
              cases hb : DIEMv.buildColsPh
                  ((DIEMv.setKey d "embedding" (.vstr es)).map Prod.fst) with
              | error e => simp [hb] at h
              | ok pr =>
                  have := buildColsPh_valid _ pr hb
                  rw [setKey_keys] at this
                  exact this
    · simp [DIEMv.insert_vector, ht] at h
  · intro t d w p r h
    by_cases ht : pyIsIdentifier t
    · refine ⟨ht, ?_⟩
      by_cases hw : strTruthy w
      · by_cases hd : d.isEmpty
        · simp [DIEMv.update_vector, ht, hw, hd] at h
        · simp only [DIEMv.update_vector, ht, hw, hd, Bool.not_true,
            Bool.false_eq_true, if_false, if_true] at h
          cases hb : DIEMv.buildSet d with
          | error e => simp [hb] at h
          | ok pr => exact buildSet_valid d pr hb
      · simp [DIEMv.update_vector, ht, hw] at h
    · simp [DIEMv.update_vector, ht] at h
  · intro t w p r h
    by_cases ht : pyIsIdentifier t
    · exact ht
    · simp [DIEMv.delete_vectors, ht] at h

/-- C2 witness: a concrete successful insert implies its identifiers were
validated. -/
theorem c2_witness :
    pyIsIdentifier "products" = true ∧
    ∀ c ∈ ([("embedding", Val.vlist [1])] : Params).map Prod.fst,
      pyIsIdentifier c = true :=
  c2_identifier_gate.2.1 "products" [("embedding", Val.vlist [1])]
    ("INSERT INTO products (embedding) VALUES (VEC_FromText(:embedding));",
      [("embedding", Val.vstr "[1]")]) rfl

/-- C3 counterexample: `DEAM.delete_vectors` of `src/DIEM2.py` invoked with
no WHERE filter at all but `delete_all=True` does not fail — it sends a
`TRUNCATE TABLE` statement to the engine, emptying the table. -/
theorem c3_counterexample :
    DEAM.delete_vectors "products" none none true =
      .executed "TRUNCATE TABLE products" := rfl

/-- C3 amended: update/delete invocations whose filter clause is empty or
absent are rejected before any statement reaches the engine — with
UnsafeMutationError-style errors in `src/DIEM/DIEM.py`, and as the
"no criteria" no-op in `src/DIEM2.py` provided the explicit `delete_all`
mass-deletion flag is not set (with `delete_all=True` the table is
truncated; see the counterexample).  Under any engine semantics the table
is unchanged by a rejected call. -/
theorem c3_filter_guard :
    (∀ t w p, pyIsIdentifier t = true → strTruthy w = false →
      DIEMv.delete_vectors t w p =
        .error (.unsafeMutation "WHERE clause required") ∧
      ∀ eng tbl, DIEMv.applyStmt eng tbl (DIEMv.delete_vectors t w p) = tbl) ∧
    (∀ t d w p, pyIsIdentifier t = true → strTruthy w = false →
      DIEMv.update_vector t d w p =
        .error (.unsafeMutation "WHERE clause required") ∧
      ∀ eng tbl, DIEMv.applyStmt eng tbl (DIEMv.update_vector t d w p) = tbl) ∧
    (∀ (t : String) (ids : Option (List Int))
        (fb : Option (List (String × String))),
      listTruthy ids = false → listTruthy fb = false →
      DEAM.delete_vectors t ids fb false = .noCriteria) := by
  refine ⟨?_, ?_, ?_⟩
  · intro t w p ht hw
    have h : DIEMv.delete_vectors t w p =
        .error (.unsafeMutation "WHERE clause required") := by
      simp [DIEMv.delete_vectors, ht, hw]
    exact ⟨h, fun eng tbl => by rw [h]; rfl⟩
  · intro t d w p ht hw
    have h : DIEMv.update_vector t d w p =
        .error (.unsafeMutation "WHERE clause required") := by
      simp [DIEMv.update_vector, ht, hw]
    exact ⟨h, fun eng tbl => by rw [h]; rfl⟩
  · intro t ids fb hids hfb
    simp [DEAM.delete_vectors, hids, hfb]

/-- C3 witness: a concrete filterless delete and update are rejected and a
nonempty table survives them unchanged, and the `src/DIEM2.py` variant with
no criteria is a no-op. -/
theorem c3_witness :
    DIEMv.delete_vectors "products" none [] =
      .error (.unsafeMutation "WHERE clause required") ∧
    DIEMv.applyStmt (fun _ _ _ => []) [[("id", Val.vint 1)]]
      (DIEMv.delete_vectors "products" none []) = [[("id", Val.vint 1)]] ∧
    DIEMv.update_vector "products" [("name", Val.vstr "x")] (some "") [] =
      .error (.unsafeMutation "WHERE clause required") ∧
    DEAM.delete_vectors "products" (none : Option (List Int))
      (none : Option (List (String × String))) false = .noCriteria :=
  ⟨(c3_filter_guard.1 "products" none [] (by decide) (by decide)).1,
   (c3_filter_guard.1 "products" none [] (by decide) (by decide)).2
     (fun _ _ _ => []) [[("id", Val.vint 1)]],
   (c3_filter_guard.2.1 "products" [("name", Val.vstr "x")] (some "") []
     (by decide) (by decide)).1,
   c3_filter_guard.2.2 "products" none none (by decide) (by decide)⟩

/-- C6 counterexample: `DEAM.search_vectors` of `src/DIEM2.py` accepts the
metric `"ip"`, which is outside `{cosine, euclidean}`, and builds and runs
a query instead of rejecting it with a domain error. -/
theorem c6_counterexample :
    DEAM.search_vectors "products" "ip" =
      .ok ("SELECT id, 1-(vector <-> %s) AS similarity_score, metadata FROM products ORDER BY vector <-> %s DESC LIMIT %s") ∧
    pyLower "ip" ≠ "cosine" ∧ pyLower "ip" ≠ "euclidean" :=
  ⟨rfl, by decide, by decide⟩

/-- C6 amended: metrics outside the supported set are rejected with a
domain error before any statement is built: outside `{cosine, euclidean}`
for `create_table` of `src/DIEM.py`, for `create_table` of
`src/DIEM/DIEM.py` (whose table-existence catalog check runs first, so the
guard applies to new tables) and for `similarity_search`; and outside
`{cosine, euclidean, ip}` for `DEAM.search_vectors` of `src/DIEM2.py`,
which additionally accepts `"ip"` (see the counterexample). -/
theorem c6_metric_gate :
    (∀ db t dim met m, (["cosine", "euclidean"].contains (pyLower met)) = false →
      DIEM1.create_table db t dim met m = .error (.invalidMetric met)) ∧
    (∀ db t dim oc pk met m idx, db.contains t = false →
      pyIsIdentifier t = true → pyIsIdentifier idx = true →
      (["cosine", "euclidean"].contains (pyLower met)) = false →
      DIEMv.create_table db t dim oc pk met m idx =
        .error (.invalidMetric met)) ∧
    (∀ t q met k, pyLower met ≠ "cosine" → pyLower met ≠ "euclidean" →
      DIEMv.similarity_search t q met k = .error (.invalidMetric met)) ∧
    (∀ t met, pyLower met ≠ "euclidean" → pyLower met ≠ "cosine" →
      pyLower met ≠ "ip" →
      DEAM.search_vectors t met = .error (.invalidMetric met)) := by
  refine ⟨?_, ?_, ?_, ?_⟩
  · intro db t dim met m hmet
    simp only [DIEM1.create_table]
    rw [if_pos (by simpa using hmet)]
  · intro db t dim oc pk met m idx hdb ht hidx hmet
    simp only [DIEMv.create_table]
    rw [if_neg (by simpa using hdb), if_neg (by simp [ht]),
      if_neg (by simp [hidx]), if_pos (by simpa using hmet)]
  · intro t q met k hc he
    simp [DIEMv.similarity_search, hc, he]
  · intro t met h1 h2 h3
    simp [DEAM.search_vectors, h1, h2, h3]

/-- C6 witness: the concrete unsupported metric `"manhattan"` is rejected
by all four operations. -/
theorem c6_witness :
    DIEM1.create_table [] "products" 3 "manhattan" 8 =
      .error (.invalidMetric "manhattan") ∧
    DIEMv.create_table [] "products" 3 [] none "manhattan" 8 "vec_idx" =
      .error (.invalidMetric "manhattan") ∧
    DIEMv.similarity_search "products" (Val.vlist [1]) "manhattan" 5 =
      .error (.invalidMetric "manhattan") ∧
    DEAM.search_vectors "products" "manhattan" =
      .error (.invalidMetric "manhattan") :=
  ⟨c6_metric_gate.1 [] "products" 3 "manhattan" 8 (by decide),
   c6_metric_gate.2.1 [] "products" 3 [] none "manhattan" 8 "vec_idx"
     (by decide) (by decide) (by decide) (by decide),
   c6_metric_gate.2.2.1 "products" (Val.vlist [1]) "manhattan" 5
     (by decide) (by decide),
   c6_metric_gate.2.2.2 "products" "manhattan" (by decide) (by decide) (by decide)⟩

/-- C1 counterexample: `insert_vectors` of `src/DIEM.py` interpolates the
supplied values into the statement text — two invocations differing only in
`doc_id` produce different INSERT texts, so values are not bound as
parameters there. -/
theorem c1_counterexample :
    DIEM1.insert_vectors 1 "products" "[0.1, 0.2]" ≠
      DIEM1.insert_vectors 2 "products" "[0.1, 0.2]" := by
  decide

/-- C1 amended: in `src/DIEM/DIEM.py` every operation binds variable
values exclusively as named parameters — two invocations of the same
operation differing only in the supplied values (same table, same column
set, same filter clause, same metric) produce identical statement text —
and `create_table` of `src/DIEM.py` binds its tuning value `m` likewise.
The claim fails for `insert_vectors` of `src/DIEM.py` and for
`update_vectors`/`delete_vectors` of `src/DIEM2.py`, which interpolate
values into the text (see the counterexample). -/
theorem c1_value_binding :
    (∀ t d₁ d₂ r₁ r₂, d₁.map Prod.fst = d₂.map Prod.fst →
      DIEMv.insert_vector t d₁ = .ok r₁ → DIEMv.insert_vector t d₂ = .ok r₂ →
      r₁.1 = r₂.1) ∧
    (∀ t d₁ d₂ w p₁ p₂ r₁ r₂, d₁.map Prod.fst = d₂.map Prod.fst →
      DIEMv.update_vector t d₁ w p₁ = .ok r₁ →
      DIEMv.update_vector t d₂ w p₂ = .ok r₂ → r₁.1 = r₂.1) ∧
    (∀ t q₁ q₂ met k₁ k₂ r₁ r₂,
      DIEMv.similarity_search t q₁ met k₁ = .ok r₁ →
      DIEMv.similarity_search t q₂ met k₂ = .ok r₂ → r₁.1 = r₂.1) ∧
    (∀ t w p₁ p₂ r₁ r₂,
      DIEMv.delete_vectors t w p₁ = .ok r₁ →
      DIEMv.delete_vectors t w p₂ = .ok r₂ → r₁.1 = r₂.1) ∧
    (∀ db t dim met m₁ m₂ r₁ r₂,
      DIEM1.create_table db t dim met m₁ = .ok r₁ →
      DIEM1.create_table db t dim met m₂ = .ok r₂ → r₁.1 = r₂.1) := by
  refine ⟨?_, ?_, ?_, ?_, ?_⟩
  · intro t d₁ d₂ r₁ r₂ hk h₁ h₂
    rw [insert_vector_sql t d₁ r₁ h₁, insert_vector_sql t d₂ r₂ h₂, hk]
  · intro t d₁ d₂ w p₁ p₂ r₁ r₂ hk h₁ h₂
    rw [update_vector_sql t d₁ w p₁ r₁ h₁, update_vector_sql t d₂ w p₂ r₂ h₂, hk]
  · intro t q₁ q₂ met k₁ k₂ r₁ r₂ h₁ h₂
    rw [similarity_search_sql t q₁ met k₁ r₁ h₁,
      similarity_search_sql t q₂ met k₂ r₂ h₂]
  · intro t w p₁ p₂ r₁ r₂ h₁ h₂
    rw [delete_vectors_sql t w p₁ r₁ h₁, delete_vectors_sql t w p₂ r₂ h₂]
  · intro db t dim met m₁ m₂ r₁ r₂ h₁ h₂
    rw [DIEM1_create_table_sql db t dim met m₁ r₁ h₁,
      DIEM1_create_table_sql db t dim met m₂ r₂ h₂]

/-- C1 witness: two concrete inserts differing only in the embedding value
produce the same INSERT text. -/
theorem c1_witness :
    ("INSERT INTO products (embedding) VALUES (VEC_FromText(:embedding));",
        ([("embedding", Val.vstr "[1]")] : Params)).1 =
      ("INSERT INTO products (embedding) VALUES (VEC_FromText(:embedding));",
        ([("embedding", Val.vstr "[2]")] : Params)).1 :=
  c1_value_binding.1 "products"
    [("embedding", Val.vlist [1])] [("embedding", Val.vlist [2])]
    ("INSERT INTO products (embedding) VALUES (VEC_FromText(:embedding));",
      [("embedding", Val.vstr "[1]")])
    ("INSERT INTO products (embedding) VALUES (VEC_FromText(:embedding));",
      [("embedding", Val.vstr "[2]")])
    rfl rfl rfl

/-- C4: batch insert is atomic under engine-execution failure.  In both
implementations, whenever the batch ends rolled back (the engine rejected
a well-formed row mid-batch), the table holds exactly the rows it held
before the call: zero rows of the batch were committed. -/
theorem c4_batch_atomic :
    (∀ jsonOk engineOk t fn rows tbl,
      (DIEMv.batch_insert_vectors jsonOk engineOk t fn rows tbl).1 = .rolledBack →
      (DIEMv.batch_insert_vectors jsonOk engineOk t fn rows tbl).2 = tbl) ∧
    (∀ jsonOk engineOk t rows tbl,
      (DIEM1.batch_insert_vectors jsonOk engineOk t rows tbl).1 = .rolledBack →
      (DIEM1.batch_insert_vectors jsonOk engineOk t rows tbl).2 = tbl) := by
  constructor
  · intro jsonOk engineOk t fn rows tbl h
    simp only [DIEMv.batch_insert_vectors] at h ⊢
    by_cases h1 : fn.isEmpty = true
    · rw [if_pos h1]
    · rw [if_neg h1] at h ⊢
      by_cases h2 : fn.contains "embedding" = true
      · rw [if_neg (by simpa using h2)] at h ⊢
        cases hl : DIEMv.batchLoop jsonOk engineOk
            (DIEMv.batchInsertSql t (fn.filter pyIsIdentifier))
            (fn.filter pyIsIdentifier) rows with
        | error e => simp [hl]
        | ok pr =>
            obtain ⟨a, k⟩ := pr
            simp [hl] at h
      · rw [if_pos (by simpa using h2)]
  · intro jsonOk engineOk t rows tbl h
    simp only [DIEM1.batch_insert_vectors] at h ⊢
    cases hl : DIEM1.batchLoop jsonOk engineOk t rows with
    | error e => simp [hl]
    | ok pr =>
        obtain ⟨a, k⟩ := pr
        simp [hl] at h

/-- C4 witness: a concrete batch whose single well-formed row the engine
rejects rolls back, leaving a concrete pre-existing table untouched, in
both implementations. -/
theorem c4_witness :
    (DIEMv.batch_insert_vectors (fun _ => true) (fun _ _ => false) "products"
        ["embedding"] [[("embedding", "[1]")]] [[("embedding", "[0]")]]).2 =
      [[("embedding", "[0]")]] ∧
    (DIEM1.batch_insert_vectors (fun _ => true) (fun _ _ => false) "products"
        [("a", "b", "[1]")] [[("name", "old")]]).2 = [[("name", "old")]] :=
  ⟨c4_batch_atomic.1 (fun _ => true) (fun _ _ => false) "products"
      ["embedding"] [[("embedding", "[1]")]] [[("embedding", "[0]")]] rfl,
   c4_batch_atomic.2 (fun _ => true) (fun _ _ => false) "products"
      [("a", "b", "[1]")] [[("name", "old")]] rfl⟩

/-- C5: batch insert is row-isolating.  With an engine that accepts every
statement, a batch of N rows of which K have malformed (non-parseable)
embedding cells reports N−K inserted and K skipped, and the table gains
exactly N−K rows — in both implementations. -/
theorem c5_batch_row_isolation :
    (∀ jsonOk engineOk t fn rows tbl, "embedding" ∈ fn →
      (∀ s p, engineOk s p = true) →
      (DIEMv.batch_insert_vectors jsonOk engineOk t fn rows tbl).1 =
        .committed
          (rows.length -
            (rows.filter (fun r => !jsonOk (DIEMv.lookupD r "embedding"))).length)
          (rows.filter (fun r => !jsonOk (DIEMv.lookupD r "embedding"))).length ∧
      (DIEMv.batch_insert_vectors jsonOk engineOk t fn rows tbl).2.length =
        tbl.length +
          (rows.length -
            (rows.filter (fun r => !jsonOk (DIEMv.lookupD r "embedding"))).length)) ∧
    (∀ jsonOk engineOk t rows tbl, (∀ s p, engineOk s p = true) →
      (DIEM1.batch_insert_vectors jsonOk engineOk t rows tbl).1 =
        .committed
          (rows.length -
            (rows.filter (fun r => !jsonOk (pyStrip r.2.2))).length)
          (rows.filter (fun r => !jsonOk (pyStrip r.2.2))).length ∧
      (DIEM1.batch_insert_vectors jsonOk engineOk t rows tbl).2.length =
        tbl.length +
          (rows.length -
            (rows.filter (fun r => !jsonOk (pyStrip r.2.2))).length)) := by
  constructor
  · intro jsonOk engineOk t fn rows tbl hmem heng
    have hne : ¬fn.isEmpty = true := by
      cases fn with
      | nil => simp at hmem
      | cons a l => simp
    have hemb : fn.contains "embedding" = true := by simpa using hmem
    have hcols : "embedding" ∈ fn.filter pyIsIdentifier :=
      List.mem_filter.mpr ⟨hmem, by decide⟩
    have hloop := DIEMv_batchLoop_total jsonOk engineOk
      (DIEMv.batchInsertSql t (fn.filter pyIsIdentifier))
      (fn.filter pyIsIdentifier) rows heng
    have hpred : (fun r => jsonOk (DIEMv.lookupD
        (DIEMv.paramsFor (fn.filter pyIsIdentifier) r) "embedding")) =
        (fun r => jsonOk (DIEMv.lookupD r "embedding")) :=
      funext fun r => by rw [lookupD_paramsFor _ _ _ hcols]
    have hpredn : (fun r => !jsonOk (DIEMv.lookupD
        (DIEMv.paramsFor (fn.filter pyIsIdentifier) r) "embedding")) =
        (fun r => !jsonOk (DIEMv.lookupD r "embedding")) :=
      funext fun r => by rw [lookupD_paramsFor _ _ _ hcols]
    rw [hpred, hpredn] at hloop
    have hsum := length_filter_not_add rows
      (fun r => jsonOk (DIEMv.lookupD r "embedding"))
    have hlen : ((rows.filter
        (fun r => jsonOk (DIEMv.lookupD r "embedding"))).map
          (DIEMv.paramsFor (fn.filter pyIsIdentifier))).length =
        rows.length -
          (rows.filter (fun r => !jsonOk (DIEMv.lookupD r "embedding"))).length := by
      rw [List.length_map]
      omega
    constructor
    · simp only [DIEMv.batch_insert_vectors]
      rw [if_neg hne, if_neg (by simpa using hemb), hloop]
      simp only [hlen]
    · simp only [DIEMv.batch_insert_vectors]
      rw [if_neg hne, if_neg (by simpa using hemb), hloop]
      simp [hlen]
  · intro jsonOk engineOk t rows tbl heng
    have hloop := DIEM1_batchLoop_total jsonOk engineOk t rows heng
    have hsum := length_filter_not_add rows (fun r => jsonOk (pyStrip r.2.2))
    have hlen : ((rows.filter (fun r => jsonOk (pyStrip r.2.2))).map
        (fun r => [("name", pyStrip r.1), ("description", pyStrip r.2.1),
          ("embedding", pyStrip r.2.2)])).length =
        rows.length -
          (rows.filter (fun r => !jsonOk (pyStrip r.2.2))).length := by
      rw [List.length_map]
      omega
    constructor
    · simp only [DIEM1.batch_insert_vectors]
      rw [hloop]
      simp only [hlen]
    · simp only [DIEM1.batch_insert_vectors]
      rw [hloop]
      simp [hlen]

/-- C5 witness: a concrete two-row batch with one malformed embedding
reports one inserted and one skipped, and the empty table gains exactly one
row. -/
theorem c5_witness :
    (DIEMv.batch_insert_vectors (fun s => s == "[1]") (fun _ _ => true)
        "products" ["embedding"]
        [[("embedding", "[1]")], [("embedding", "oops")]] []).1 =
      .committed 1 1 ∧
    (DIEMv.batch_insert_vectors (fun s => s == "[1]") (fun _ _ => true)
        "products" ["embedding"]
        [[("embedding", "[1]")], [("embedding", "oops")]] []).2.length = 1 :=
  have h := c5_batch_row_isolation.1 (fun s => s == "[1]") (fun _ _ => true)
    "products" ["embedding"] [[("embedding", "[1]")], [("embedding", "oops")]] []
    (by decide) (fun _ _ => rfl)
  ⟨h.1, h.2⟩

/-- C10: in batch insert from a CSV file (`src/DIEM/DIEM.py`), a header
column whose name is not a valid identifier is silently excluded: as long
as the header has an `embedding` column, the batch does not fail on the
invalid column, and every row committed by the batch carries exactly the
identifier-filtered columns — the excluded column's values are never
transmitted. -/
theorem c10_csv_column_filtering :
    ∀ jsonOk engineOk t fn rows tbl, "embedding" ∈ fn →
      (DIEMv.batch_insert_vectors jsonOk engineOk t fn rows tbl).1 ≠
        .headerError ∧
      ∀ p ∈ (DIEMv.batch_insert_vectors jsonOk engineOk t fn rows tbl).2,
        p ∈ tbl ∨ p.map Prod.fst = fn.filter pyIsIdentifier := by
  intro jsonOk engineOk t fn rows tbl hmem
  have hne : ¬fn.isEmpty = true := by
    cases fn with
    | nil => simp at hmem
    | cons a l => simp
  have hemb : fn.contains "embedding" = true := by simpa using hmem
  simp only [DIEMv.batch_insert_vectors]
  rw [if_neg hne, if_neg (by simpa using hemb)]
  cases hl : DIEMv.batchLoop jsonOk engineOk
      (DIEMv.batchInsertSql t (fn.filter pyIsIdentifier))
      (fn.filter pyIsIdentifier) rows with
  | error e =>
      refine ⟨by simp, ?_⟩
      intro p hp
      exact Or.inl hp
  | ok pr =>
      obtain ⟨a, k⟩ := pr
      refine ⟨by simp, ?_⟩
      intro p hp
      rcases List.mem_append.mp hp with hp2 | hp2
      · exact Or.inl hp2
      · exact Or.inr (DIEMv_batchLoop_applied_keys jsonOk engineOk
          (DIEMv.batchInsertSql t (fn.filter pyIsIdentifier))
          (fn.filter pyIsIdentifier) rows a k hl p hp2)

/-- C10 witness: a concrete CSV header with the invalid column `"a b"`
does not fail, and the committed row carries only the valid columns. -/
theorem c10_witness :
    (DIEMv.batch_insert_vectors (fun _ => true) (fun _ _ => true) "products"
        ["embedding", "a b", "name"]
        [[("embedding", "[1]"), ("a b", "x"), ("name", "n1")]] []).1 ≠
      .headerError ∧
    ∀ p ∈ (DIEMv.batch_insert_vectors (fun _ => true) (fun _ _ => true)
        "products" ["embedding", "a b", "name"]
        [[("embedding", "[1]"), ("a b", "x"), ("name", "n1")]] []).2,
      p ∈ ([] : List DIEMv.Row) ∨
        p.map Prod.fst = ["embedding", "a b", "name"].filter pyIsIdentifier :=
  c10_csv_column_filtering (fun _ => true) (fun _ _ => true) "products"
    ["embedding", "a b", "name"]
    [[("embedding", "[1]"), ("a b", "x"), ("name", "n1")]] [] (by decide)

end DIEMSpec
